import Mathlib

/-!
Shallow embedding of `src/src/core/SkColorSpaceXformer.cpp`.

The file models the color-space retargeting core: a converter bound to a
destination color space that rewrites colors, images, shaders (effect nodes)
and paints (drawing styles).  Pure values are Lean data; fallible calls return
`Option`; a fatal event (a failed `SkASSERT` or a member call through a null
`sk_sp`) is the `crash` result of the `Res` type.

External collaborators (code of the repository outside this file) are either
modelled from the spec (marked in their doc comments) or taken as parameters
bundled in `Hooks`.
-/

/-- Packed 32-bit ARGB color (`SkColor`).  The low 24 bits are the RGB
channels, the high byte is alpha. -/
abbrev SkColor := Nat

/-- Scalar values (`SkScalar`) are only carried through by the core, never
computed on; they are modelled as opaque integers. -/
abbrev SkScalar := Int

/-- Local coordinate transforms (`SkMatrix`) are opaque tokens: the core only
copies them. -/
abbrev SkMatrix := Nat

/-- Opaque identifier of a color space (`SkColorSpace`). -/
abbrev SkColorSpaceId := Nat

/-- Blend rules (`SkBlendMode`) are opaque tokens. -/
abbrev SkBlendMode := Nat

/-- A 2-D point, as used for gradient geometry. -/
structure SkPoint where
  x : SkScalar
  y : SkScalar
  deriving DecidableEq

/-- `SkShader::TileMode`. -/
inductive SkTileMode where
  | kClamp
  | kRepeat
  | kMirror
  deriving DecidableEq

/-- `SkShader::GradientType` without `kNone_GradientType`: the gradient branch
is entered only when `asAGradient` returns a nonzero type (`kNone` is 0 and
fails the `if (auto type = ...)` guard); absence of a gradient is the `none`
of an `Option` around this type. -/
inductive SkGradType where
  | kColor
  | kLinear
  | kRadial
  | kSweep
  | kConical
  deriving DecidableEq

/-- An image: an object identity, a color-space tag, and whether
`makeColorSpace` can materialize it (the external conversion may fail). -/
structure SkImage where
  objId : Nat
  space : Option SkColorSpaceId
  mcsOk : Bool
  deriving DecidableEq

/-- Modelled from the spec: `SkImage_Base::makeColorSpace` is repository code
outside `src/`.  Per spec 3 and 4.2 it returns an equivalent, distinct image
tagged with the destination color space, or none when the source cannot be
materialized.  Freshness is modelled by bumping the object identity. -/
def SkImage.makeColorSpace (img : SkImage) (dst : SkColorSpaceId) : Option SkImage :=
  if img.mcsOk then some { objId := img.objId + 1, space := some dst, mcsOk := img.mcsOk } else none

/-- The data filled in by `SkShader::asAGradient`: stop colors and offsets,
geometry (two points, two radii), tile mode and flags. -/
structure SkGradientDesc where
  colors : List SkColor
  offsets : List SkScalar
  point0 : SkPoint
  point1 : SkPoint
  radius0 : SkScalar
  radius1 : SkScalar
  tileMode : SkTileMode
  flags : Nat
  deriving DecidableEq

/-- The data produced by `SkShader::isAImage`: the backing image, the two tile
modes and the local matrix it reports. -/
structure SkImageQuery where
  img : SkImage
  tmx : SkTileMode
  tmy : SkTileMode
  localMatrix : SkMatrix
  deriving DecidableEq

/-- Shaders.  `node` is an arbitrary collaborator effect node, characterized by
its introspection answers (spec 6: constant-color, image-backed, composite,
gradient), exactly the interface `SkColorSpaceXformer::apply(const SkShader*)`
uses; when `hasCompose` is false the two child slots are ignored.  The other
constructors are the opaque results of the external construction APIs the core
calls (`MakeColorShader`, `makeWithLocalMatrix`, `SkImage::makeShader`,
`MakeComposeShader`, and the four `SkGradientShader` builders); the core never
introspects the shaders it builds.  Note `MakeSweep` takes no tile mode. -/
inductive Shader where
  | node (isConst : Bool) (lum : Option SkColor) (imgq : Option SkImageQuery)
      (hasCompose : Bool) (compA compB : Shader) (compMode : SkBlendMode)
      (grad : Option (SkGradType × SkGradientDesc)) (localM : SkMatrix) : Shader
  | colorShader (c : SkColor) : Shader
  | withLocalMatrix (s : Shader) (m : SkMatrix) : Shader
  | imageShader (img : SkImage) (tmx tmy : SkTileMode) (localM : SkMatrix) : Shader
  | composeShader (a b : Shader) (mode : SkBlendMode) : Shader
  | linearG (p0 p1 : SkPoint) (colors : List SkColor) (offsets : List SkScalar)
      (tm : SkTileMode) (flags : Nat) (localM : SkMatrix) : Shader
  | radialG (center : SkPoint) (radius : SkScalar) (colors : List SkColor)
      (offsets : List SkScalar) (tm : SkTileMode) (flags : Nat) (localM : SkMatrix) : Shader
  | sweepG (cx cy : SkScalar) (colors : List SkColor) (offsets : List SkScalar)
      (flags : Nat) (localM : SkMatrix) : Shader
  | conicalG (startP : SkPoint) (startR : SkScalar) (endP : SkPoint) (endR : SkScalar)
      (colors : List SkColor) (offsets : List SkScalar) (tm : SkTileMode)
      (flags : Nat) (localM : SkMatrix) : Shader
  deriving DecidableEq

/-- The tile mode a rebuilt gradient shader carries.  The sweep builder
(`SkGradientShader::MakeSweep`) receives no tile-mode argument, so a rebuilt
sweep gradient records none. -/
def gradTileMode : Shader → Option SkTileMode
  | .linearG _ _ _ _ tm _ _ => some tm
  | .radialG _ _ _ _ tm _ _ => some tm
  | .conicalG _ _ _ _ _ _ tm _ _ => some tm
  | _ => none

/-- Result of running a piece of the core: a returned value, or a halt
(a failed `SkASSERT`, or undefined behavior from a member call through a null
`sk_sp`, which the embedding treats as a crash). -/
inductive Res (α : Type) where
  | ok (val : α) : Res α
  | crash : Res α
  deriving DecidableEq

/-- `SkColorSpaceXformer`: destination space plus the bound source-to-dest
numeric transform.  Modelled from the spec: `SkColorSpaceXform` (repository
code outside `src/`) converts pixels independently through a fixed per-pixel
map, so the transform is that map. -/
structure SkColorSpaceXformer where
  fDst : SkColorSpaceId
  fFromSRGB : SkColor → SkColor

/-- The fixed implicit source space (`SkColorSpace::MakeSRGB`). -/
def srgbSpace : SkColorSpaceId := 0

/-- `SkColorSpaceXformer::Make`.  The external factory
`SkColorSpaceXform_Base::New` (repository code outside `src/`) is taken as the
parameter `mkXform`; when it yields no transform, `Make` yields no xformer,
otherwise the xformer stores the destination and the transform. -/
def SkColorSpaceXformer.Make
    (mkXform : SkColorSpaceId → SkColorSpaceId → Option (SkColor → SkColor))
    (dst : SkColorSpaceId) : Option SkColorSpaceXformer :=
  match mkXform srgbSpace dst with
  | none => none
  | some t => some { fDst := dst, fFromSRGB := t }

/-- Modelled from the spec: `SkColorSpaceXform::apply` (repository code outside
`src/`) converts each pixel of the batch independently through the bound
transform.  The color formats and alpha type are fixed constants in the call
(`kBGRA_8888` on both sides, `kUnpremul`); per spec 4.1 the call always
succeeds once the transform exists, so the guarding `SkAssertResult` never
fires and is not represented. -/
def xformBatch (t : SkColor → SkColor) (srgb : List SkColor) : List SkColor :=
  srgb.map t

/-- `SkColorSpaceXformer::apply(SkColor*, const SkColor*, int)`: batch color
conversion through the stored transform. -/
def SkColorSpaceXformer.applyN (xf : SkColorSpaceXformer) (srgb : List SkColor) : List SkColor :=
  xformBatch xf.fFromSRGB srgb

/-- `SkColorSpaceXformer::apply(SkColor)`: the scalar form writes one color
through the batch form with count 1 and returns the single converted value. -/
def SkColorSpaceXformer.apply1 (xf : SkColorSpaceXformer) (srgb : SkColor) : SkColor :=
  (xf.applyN [srgb]).headD 0

/-- `SkColorSpaceXformer::apply(const SkImage*)`: retarget an image to the
destination space via `makeColorSpace`. -/
def SkColorSpaceXformer.applyImage (xf : SkColorSpaceXformer) (src : SkImage) : Option SkImage :=
  src.makeColorSpace xf.fDst

/-- A bitmap, modelled from the spec as the outcome of wrapping it:
`SkMakeImageFromRasterBitmap(src, kNever_SkCopyPixelsMode)` is repository code
outside `src/` that yields a zero-copy image over the bitmap pixels, or none
when no image can be made. -/
structure SkBitmap where
  wrapped : Option SkImage
  deriving DecidableEq

/-- `SkColorSpaceXformer::apply(const SkBitmap&)`: wrap the bitmap without
copying, retarget the wrap, and assert the result is not the identical wrap
object (`SkASSERT(xformed != image)`, a halt when violated). -/
def SkColorSpaceXformer.applyBitmap (xf : SkColorSpaceXformer) (src : SkBitmap) :
    Res (Option SkImage) :=
  match src.wrapped with
  | none => .ok none
  | some image =>
    match image.makeColorSpace xf.fDst with
    | none => .ok none
    | some xformed => if xformed = image then .crash else .ok (some xformed)

/-- External collaborator behavior the core calls into but does not define:
whether a given `SkGradientShader` builder call succeeds (the builders are
construction APIs outside the core, spec 1; the built value is canonical when
they do), and the `SkDrawLooper::makeColorSpace` retarget callback. -/
structure Hooks where
  gradOk : Shader → Bool
  looperMCS : Nat → Nat

/-- A gradient builder call: the canonically built gradient when the external
builder succeeds, a null shader when it does not. -/
def mkGradient (hk : Hooks) (b : Shader) : Res (Option Shader) :=
  .ok (if hk.gradOk b then some b else none)

/-- Line 69: `this->apply(img)->makeShader(xy[0], xy[1], &local)`.  The image
retarget result is dereferenced with no null check, so a failed retarget is a
member call through a null `sk_sp` (crash); on success an image shader is
built from the retargeted image, the reported tile modes and the reported
local matrix. -/
def imageStep (r : Option SkImage) (q : SkImageQuery) : Res (Option Shader) :=
  match r with
  | none => .crash
  | some i => .ok (some (.imageShader i q.tmx q.tmy q.localMatrix))

/-- Lines 74-79: both children have been converted; a composite is rebuilt
(wrapped in the node's local matrix) only when both conversions returned a
shader, otherwise control falls through to the rest of the dispatch. -/
def composeResult (rA rB : Res (Option Shader)) (mode : SkBlendMode) (localM : SkMatrix)
    (fallthrough : Res (Option Shader)) : Res (Option Shader) :=
  match rA with
  | .crash => .crash
  | .ok A =>
    match rB with
    | .crash => .crash
    | .ok B =>
      match A, B with
      | some a, some b => .ok (some (.withLocalMatrix (.composeShader a b mode) localM))
      | _, _ => fallthrough

/-- Lines 82-140: the gradient branch followed by the final fallback.  The
stop colors are converted in one batch call; `kColor` hits `SkASSERT(false)`
(crash) and `kNone` cannot enter the branch; each of the four builders gets
the same geometry, offsets, flags and local matrix as reported, and the tile
mode where its signature has one (`MakeSweep` takes none).  With no gradient
answer, the original node is returned by shared reference
(`sk_ref_sp(shader)`, line 140). -/
def gradientOrFallback (hk : Hooks) (xf : SkColorSpaceXformer) (orig : Shader)
    (grad : Option (SkGradType × SkGradientDesc)) (localM : SkMatrix) : Res (Option Shader) :=
  match grad with
  | some (ty, d) =>
    match ty with
    | .kColor => .crash
    | .kLinear =>
      mkGradient hk (.linearG d.point0 d.point1 (xf.applyN d.colors) d.offsets
        d.tileMode d.flags localM)
    | .kRadial =>
      mkGradient hk (.radialG d.point0 d.radius0 (xf.applyN d.colors) d.offsets
        d.tileMode d.flags localM)
    | .kSweep =>
      mkGradient hk (.sweepG d.point0.x d.point0.y (xf.applyN d.colors) d.offsets
        d.flags localM)
    | .kConical =>
      mkGradient hk (.conicalG d.point0 d.radius0 d.point1 d.radius1
        (xf.applyN d.colors) d.offsets d.tileMode d.flags localM)
  | none => .ok (some orig)

/-- `SkColorSpaceXformer::apply(const SkShader*)`, lines 59-141.  Dispatch in
source order: constant color, image-backed, composite, gradient, then the
fallback returning the original node (`sk_ref_sp(shader)`).  The image branch
calls `makeShader` through the retarget result without a null check, so a
failed retarget is a null-pointer member call (crash).  A composite whose
children do not both convert falls through to the gradient check and, absent a
gradient answer, to the fallback.  In the gradient branch, the `kColor` kind
hits `SkASSERT(false)` (crash); `kNone` cannot enter the branch at all.
Constructed shaders are opaque to the introspection modelled here: the core
only introspects the collaborator nodes it is handed, so every non-`node`
input takes the fallback. -/
def applyShader (hk : Hooks) (xf : SkColorSpaceXformer) : Shader → Res (Option Shader)
  | .node isConst lum imgq hasCompose compA compB compMode grad localM =>
    match isConst, lum with
    | true, some color =>
      .ok (some (.withLocalMatrix (.colorShader (xf.apply1 color)) localM))
    | _, _ =>
      match imgq with
      | some q => imageStep (xf.applyImage q.img) q
      | none =>
        let afterCompose : Res (Option Shader) :=
          gradientOrFallback hk xf
            (.node isConst lum none hasCompose compA compB compMode grad localM) grad localM
        if hasCompose then
          composeResult (applyShader hk xf compA) (applyShader hk xf compB)
            compMode localM afterCompose
        else afterCompose
  | s => .ok (some s)

/-- Color filters: the solid-recolor filter (`SkModeColorFilter`, the only
filter kind holding a color) and an opaque stand-in for every other kind. -/
inductive ColorFilter where
  | modeFilter (c : SkColor) (mode : SkBlendMode) : ColorFilter
  | other (id : Nat) : ColorFilter
  deriving DecidableEq

/-- `SkColorFilter::asColorMode`: the solid-recolor filter reports its color
and blend mode; other filters answer no. -/
def ColorFilter.asColorMode : ColorFilter → Option (SkColor × SkBlendMode)
  | .modeFilter c m => some (c, m)
  | .other _ => none

/-- `SkColorFilter::MakeModeFilter`, modelled as the canonical mode-filter
constructor. -/
def MakeModeFilter (c : SkColor) (m : SkBlendMode) : ColorFilter :=
  .modeFilter c m

/-- Lines 146-149: the flat color is converted unless its RGB channels are all
zero (`src.getColor() & 0xffffff` false), because all color spaces share the
same black point. -/
def colorStep (xf : SkColorSpaceXformer) (c : SkColor) : SkColor :=
  if c &&& 0xffffff ≠ 0 then xf.apply1 c else c

/-- Lines 155-162: a filter reporting a color and a blend mode (the
solid-recolor filter) is rebuilt with its color converted — unconditionally,
with no black fast path; any other filter passes through unchanged. -/
def filterStep (xf : SkColorSpaceXformer) : Option ColorFilter → Option ColorFilter
  | some cf =>
    match cf.asColorMode with
    | some (c, m) => some (MakeModeFilter (xf.apply1 c) m)
    | none => some cf
  | none => none

/-- `SkPaint`: the fields the core touches — flat color, optional shader,
optional color filter, optional draw looper (an opaque token). -/
structure SkPaint where
  color : SkColor
  shader : Option Shader
  colorFilter : Option ColorFilter
  looper : Option Nat
  deriving DecidableEq

/-- `SkColorSpaceXformer::apply(const SkPaint&)`, lines 143-171: copy the
paint; convert the flat color unless its RGB channels are all zero (all color
spaces share the same black point); replace the shader by its conversion;
rebuild a solid-recolor filter with its color converted (unconditionally, no
black fast path); hand the looper its retarget callback.  Image filters are
left untouched (explicit non-goal). -/
def applyPaint (hk : Hooks) (xf : SkColorSpaceXformer) (src : SkPaint) : Res SkPaint :=
  match src.shader with
  | none =>
    .ok { color := colorStep xf src.color, shader := none,
          colorFilter := filterStep xf src.colorFilter, looper := src.looper.map hk.looperMCS }
  | some s =>
    match applyShader hk xf s with
    | .crash => .crash
    | .ok sh =>
      .ok { color := colorStep xf src.color, shader := sh,
            colorFilter := filterStep xf src.colorFilter, looper := src.looper.map hk.looperMCS }

/-! Concrete instances used by witnesses and counterexamples. -/

/-- A concrete xformer: destination space 1, transform adding 1 to the packed
color value (any injective-looking map will do; the core never inspects it). -/
def xf0 : SkColorSpaceXformer := { fDst := 1, fFromSRGB := fun c => c + 1 }

/-- Hooks where every gradient builder call succeeds. -/
def hkT : Hooks := { gradOk := fun _ => true, looperMCS := fun n => n }

/-- Hooks where every gradient builder call fails (returns a null shader). -/
def hkF : Hooks := { gradOk := fun _ => false, looperMCS := fun n => n }

/-- Filler for the unused child slots of non-composite nodes. -/
def dummyShader : Shader := .colorShader 0

/-- A concrete linear-gradient introspection answer. -/
def descL : SkGradientDesc :=
  { colors := [10, 20], offsets := [0, 1], point0 := ⟨0, 0⟩, point1 := ⟨1, 0⟩,
    radius0 := 2, radius1 := 3, tileMode := .kRepeat, flags := 0 }

/-- A node reporting only a linear gradient. -/
def nodeGradL : Shader :=
  .node false none none false dummyShader dummyShader 0 (some (.kLinear, descL)) 6

/-- A node reporting only a constant color. -/
def nodeConst5 : Shader :=
  .node true (some 5) none false dummyShader dummyShader 0 none 7

/-- A node reporting only a composite of `nodeConst5` and `nodeGradL`. -/
def nodeCompose1 : Shader :=
  .node false none none true nodeConst5 nodeGradL 4 none 9

/-- An image whose external `makeColorSpace` fails. -/
def imgBad : SkImage := { objId := 3, space := some 0, mcsOk := false }

/-- An image-backed introspection answer over `imgBad`. -/
def qBad : SkImageQuery := { img := imgBad, tmx := .kClamp, tmy := .kRepeat, localMatrix := 2 }

/-- A node reporting only that it is backed by `imgBad`. -/
def nodeImgBad : Shader :=
  .node false none (some qBad) false dummyShader dummyShader 0 none 1

/-- A sweep-gradient introspection answer reporting a non-clamp tile mode. -/
def descSweep : SkGradientDesc :=
  { colors := [1, 2], offsets := [0, 1], point0 := ⟨3, 4⟩, point1 := ⟨0, 0⟩,
    radius0 := 0, radius1 := 0, tileMode := .kRepeat, flags := 2 }

/-- A node reporting only the sweep gradient `descSweep`. -/
def nodeSweep : Shader :=
  .node false none none false dummyShader dummyShader 0 (some (.kSweep, descSweep)) 11

/-- An image whose external `makeColorSpace` succeeds. -/
def imgGood : SkImage := { objId := 4, space := some 0, mcsOk := true }

/-- A bitmap that wraps to `imgGood`. -/
def bmGood : SkBitmap := { wrapped := some imgGood }

/-- A concrete external transform factory that always succeeds. -/
def mkX0 : SkColorSpaceId → SkColorSpaceId → Option (SkColor → SkColor) :=
  fun _ _ => some (fun c => c + 1)

/-- A paint whose flat color is transparent-black-RGB (alpha 0xAA). -/
def pBlack : SkPaint :=
  { color := 0xAA000000, shader := none, colorFilter := none, looper := none }

/-- A paint whose flat color has nonzero RGB bits. -/
def pRed : SkPaint :=
  { color := 0xFFFF0000, shader := none, colorFilter := none, looper := none }

/-- A paint carrying a solid-recolor filter whose color is pure black. -/
def pCF : SkPaint :=
  { color := 0xFF123456, shader := none, colorFilter := some (.modeFilter 0xFF000000 3),
    looper := none }

/-- A node reporting only the contract-breaking `kColor` gradient kind. -/
def nodeKColor : Shader :=
  .node false none none false dummyShader dummyShader 0 (some (.kColor, descL)) 0

/-- A node answering no to all four introspection queries. -/
def nodeOpaque : Shader := .node false none none false dummyShader dummyShader 3 none 8

/-- The expected conversion of `pRed` under `xf0`. -/
def pRedOut : SkPaint :=
  { color := 0xFFFF0001, shader := none, colorFilter := none, looper := none }

/-- The expected conversion of `pCF` under `xf0`. -/
def pCFOut : SkPaint :=
  { color := 0xFF123457, shader := none, colorFilter := some (.modeFilter 0xFF000001 3),
    looper := none }

/-! Helper lemmas about the dispatch, shared by the claim theorems. -/

/-- Branch 1 (lines 61-64): a node passing the constant-color introspection is
rebuilt as a color shader around the converted color, wrapped in the node's
local matrix, whatever its other answers are. -/
theorem applyShader_const (hk : Hooks) (xf : SkColorSpaceXformer) (c : SkColor)
    (imgq : Option SkImageQuery) (hc : Bool) (cA cB : Shader) (cm : SkBlendMode)
    (grad : Option (SkGradType × SkGradientDesc)) (lm : SkMatrix) :
    applyShader hk xf (.node true (some c) imgq hc cA cB cm grad lm) =
      .ok (some (.withLocalMatrix (.colorShader (xf.apply1 c)) lm)) := rfl

/-- Branch 2 (lines 66-70): a node failing the constant-color introspection but
reporting a backing image goes through `imageStep` on the image retarget. -/
theorem applyShader_imageBranch (hk : Hooks) (xf : SkColorSpaceXformer) (ic : Bool)
    (lum : Option SkColor) (q : SkImageQuery) (hc : Bool) (cA cB : Shader)
    (cm : SkBlendMode) (grad : Option (SkGradType × SkGradientDesc)) (lm : SkMatrix)
    (hconst : ic = false ∨ lum = none) :
    applyShader hk xf (.node ic lum (some q) hc cA cB cm grad lm) =
      imageStep (xf.applyImage q.img) q := by
  rcases hconst with h | h
  · subst h; cases lum <;> rfl
  · subst h; cases ic <;> rfl

/-- Past branches 1 and 2 (lines 72-141): with no constant-color match and no
backing image, the result is the compose step (when the node reports a
composite) threaded into the gradient-or-fallback continuation. -/
theorem applyShader_rest (hk : Hooks) (xf : SkColorSpaceXformer) (ic : Bool)
    (lum : Option SkColor) (hc : Bool) (cA cB : Shader) (cm : SkBlendMode)
    (grad : Option (SkGradType × SkGradientDesc)) (lm : SkMatrix)
    (hconst : ic = false ∨ lum = none) :
    applyShader hk xf (.node ic lum none hc cA cB cm grad lm) =
      if hc then
        composeResult (applyShader hk xf cA) (applyShader hk xf cB) cm lm
          (gradientOrFallback hk xf (.node ic lum none hc cA cB cm grad lm) grad lm)
      else gradientOrFallback hk xf (.node ic lum none hc cA cB cm grad lm) grad lm := by
  rcases hconst with h | h
  · subst h; cases lum <;> rfl
  · subst h; cases ic <;> rfl

/-- When both children returned but at least one returned a null shader, the
compose step takes its fallthrough. -/
theorem composeResult_fallthrough (A B : Option Shader) (cm : SkBlendMode) (lm : SkMatrix)
    (ft : Res (Option Shader)) (h : A = none ∨ B = none) :
    composeResult (.ok A) (.ok B) cm lm ft = ft := by
  rcases h with h | h
  · subst h; cases B <;> rfl
  · subst h; cases A <;> rfl

/-- A successful gradient builder call returns the canonically built shader. -/
theorem mkGradient_ok (hk : Hooks) (b : Shader) (h : hk.gradOk b = true) :
    mkGradient hk b = .ok (some b) := by
  simp [mkGradient, h]

/-- Batch conversion is the element-wise map of the scalar conversion. -/
theorem applyN_map (xf : SkColorSpaceXformer) (cs : List SkColor) :
    xf.applyN cs = cs.map xf.apply1 := by
  simp [SkColorSpaceXformer.applyN, SkColorSpaceXformer.apply1, xformBatch]

/-- The color of any successfully converted paint is its `colorStep`. -/
theorem applyPaint_color_eq (hk : Hooks) (xf : SkColorSpaceXformer) (p : SkPaint)
    (r : SkPaint) (h : applyPaint hk xf p = .ok r) :
    r.color = colorStep xf p.color := by
  obtain ⟨pc, psh, pcf, plp⟩ := p
  cases psh with
  | none => cases h; rfl
  | some s =>
    simp only [applyPaint] at h
    cases hres : applyShader hk xf s with
    | crash => rw [hres] at h; cases h
    | ok sh => rw [hres] at h; cases h; rfl

/-- The color filter of any successfully converted paint is its `filterStep`. -/
theorem applyPaint_filter_eq (hk : Hooks) (xf : SkColorSpaceXformer) (p : SkPaint)
    (r : SkPaint) (h : applyPaint hk xf p = .ok r) :
    r.colorFilter = filterStep xf p.colorFilter := by
  obtain ⟨pc, psh, pcf, plp⟩ := p
  cases psh with
  | none => cases h; rfl
  | some s =>
    simp only [applyPaint] at h
    cases hres : applyShader hk xf s with
    | crash => rw [hres] at h; cases h
    | ok sh => rw [hres] at h; cases h; rfl

/-! The claims. -/

/-- C1 counterexample: a composite node whose second child is a linear-gradient
node and whose gradient builder fails, so that the second child's conversion
yields no result; the composite's own conversion then does not fail — it
returns the original composite node (the line-140 fallback), not none. -/
theorem C1_cex :
    applyShader hkF xf0 nodeGradL = .ok none
  ∧ applyShader hkF xf0 nodeCompose1 = .ok (some nodeCompose1)
  ∧ (Res.ok (some nodeCompose1) : Res (Option Shader)) ≠ .ok none := by
  refine ⟨by decide, by decide, by decide⟩

/-- C1 (amended): for a composite node past the first two branches, when both
child conversions return but at least one returns a null shader, no composite
is built from the converted children; the dispatch falls through and (with no
gradient answer) returns the original node unchanged — in particular the
result is never a composite assembled from the partial children. -/
theorem C1_compose_child_fail (hk : Hooks) (xf : SkColorSpaceXformer) (ic : Bool)
    (lum : Option SkColor) (cA cB : Shader) (cm : SkBlendMode) (lm : SkMatrix)
    (A B : Option Shader) (hconst : ic = false ∨ lum = none)
    (hA : applyShader hk xf cA = .ok A) (hB : applyShader hk xf cB = .ok B)
    (hfail : A = none ∨ B = none) :
    applyShader hk xf (.node ic lum none true cA cB cm none lm) =
      .ok (some (.node ic lum none true cA cB cm none lm))
  ∧ ∀ a b : Shader, applyShader hk xf (.node ic lum none true cA cB cm none lm) ≠
      .ok (some (.withLocalMatrix (.composeShader a b cm) lm)) := by
  have h2 : applyShader hk xf (.node ic lum none true cA cB cm none lm) =
      composeResult (applyShader hk xf cA) (applyShader hk xf cB) cm lm
        (.ok (some (.node ic lum none true cA cB cm none lm))) :=
    (applyShader_rest hk xf ic lum true cA cB cm none lm hconst).trans rfl
  rw [hA, hB] at h2
  rw [composeResult_fallthrough A B cm lm _ hfail] at h2
  refine ⟨h2, ?_⟩
  intro a b hcon
  rw [h2] at hcon
  simp at hcon

/-- C1 witness: the amended theorem applied at the concrete composite of
`C1_cex`, with both hypotheses discharged by evaluation. -/
theorem C1_wit :
    applyShader hkF xf0 nodeConst5 = .ok (some (.withLocalMatrix (.colorShader 6) 7))
  ∧ applyShader hkF xf0 nodeGradL = .ok none
  ∧ applyShader hkF xf0 nodeCompose1 = .ok (some nodeCompose1) :=
  ⟨by decide, by decide,
    (C1_compose_child_fail hkF xf0 false none nodeConst5 nodeGradL 4 9
      (some (.withLocalMatrix (.colorShader 6) 7)) none
      (Or.inl rfl) (by decide) (by decide) (Or.inr rfl)).1⟩

/-- C2: for an image-backed node (past the constant branch) whose image
retarget yields none, the conversion does not propagate absence — line 69
calls `makeShader` through the null retarget result, a crash; in particular
the result is not the none the spec promises. -/
theorem C2_image_fail_crashes (hk : Hooks) (xf : SkColorSpaceXformer) (ic : Bool)
    (lum : Option SkColor) (q : SkImageQuery) (hc : Bool) (cA cB : Shader)
    (cm : SkBlendMode) (grad : Option (SkGradType × SkGradientDesc)) (lm : SkMatrix)
    (hconst : ic = false ∨ lum = none) (hfail : xf.applyImage q.img = none) :
    applyShader hk xf (.node ic lum (some q) hc cA cB cm grad lm) = Res.crash
  ∧ (Res.crash : Res (Option Shader)) ≠ .ok none := by
  have h := applyShader_imageBranch hk xf ic lum q hc cA cB cm grad lm hconst
  rw [hfail] at h
  exact ⟨h.trans rfl, fun hx => Res.noConfusion hx⟩

/-- C2 witness: a concrete image-backed node over an image whose retarget
fails; the conversion crashes. -/
theorem C2_wit :
    xf0.applyImage imgBad = none ∧ applyShader hkT xf0 nodeImgBad = Res.crash :=
  ⟨by decide,
    (C2_image_fail_crashes hkT xf0 false none qBad false dummyShader dummyShader 0 none 1
      (Or.inl rfl) (by decide)).1⟩

/-- C3 counterexample: a sweep-gradient node reporting the `kRepeat` tile
mode; the rebuilt sweep gradient is constructed by `MakeSweep`, whose call
(lines 118-125) passes no tile mode, so the converted node does not carry the
original's tile mode. -/
theorem C3_cex :
    applyShader hkT xf0 nodeSweep = .ok (some (.sweepG 3 4 [2, 3] [0, 1] 2 11))
  ∧ descSweep.tileMode = SkTileMode.kRepeat
  ∧ gradTileMode (.sweepG 3 4 [2, 3] [0, 1] 2 11) ≠ some SkTileMode.kRepeat := by
  refine ⟨by decide, by decide, by decide⟩

/-- C3 (amended): a gradient node (past the earlier branches) whose builder
succeeds is rebuilt as a gradient of the same kind with the same geometry and
flags, with tile mode passed through for the linear, radial and two-point
conical kinds (the sweep builder takes none); the stop offsets are passed
through unchanged and the stop colors are the one-batch conversion of the
originals, which converts each stop by the scalar conversion at its index. -/
theorem C3_gradient_structure (hk : Hooks) (xf : SkColorSpaceXformer) (ic : Bool)
    (lum : Option SkColor) (cA cB : Shader) (cm : SkBlendMode) (lm : SkMatrix)
    (d : SkGradientDesc) (hconst : ic = false ∨ lum = none) :
    (hk.gradOk (.linearG d.point0 d.point1 (xf.applyN d.colors) d.offsets d.tileMode
        d.flags lm) = true →
      applyShader hk xf (.node ic lum none false cA cB cm (some (.kLinear, d)) lm) =
        .ok (some (.linearG d.point0 d.point1 (xf.applyN d.colors) d.offsets d.tileMode
          d.flags lm)))
  ∧ (hk.gradOk (.radialG d.point0 d.radius0 (xf.applyN d.colors) d.offsets d.tileMode
        d.flags lm) = true →
      applyShader hk xf (.node ic lum none false cA cB cm (some (.kRadial, d)) lm) =
        .ok (some (.radialG d.point0 d.radius0 (xf.applyN d.colors) d.offsets d.tileMode
          d.flags lm)))
  ∧ (hk.gradOk (.sweepG d.point0.x d.point0.y (xf.applyN d.colors) d.offsets
        d.flags lm) = true →
      applyShader hk xf (.node ic lum none false cA cB cm (some (.kSweep, d)) lm) =
        .ok (some (.sweepG d.point0.x d.point0.y (xf.applyN d.colors) d.offsets
          d.flags lm)))
  ∧ (hk.gradOk (.conicalG d.point0 d.radius0 d.point1 d.radius1 (xf.applyN d.colors)
        d.offsets d.tileMode d.flags lm) = true →
      applyShader hk xf (.node ic lum none false cA cB cm (some (.kConical, d)) lm) =
        .ok (some (.conicalG d.point0 d.radius0 d.point1 d.radius1 (xf.applyN d.colors)
          d.offsets d.tileMode d.flags lm)))
  ∧ xf.applyN d.colors = d.colors.map xf.apply1 := by
  refine ⟨fun hok => ?_, fun hok => ?_, fun hok => ?_, fun hok => ?_, applyN_map xf d.colors⟩
  all_goals
    exact (applyShader_rest hk xf ic lum false cA cB cm _ lm hconst).trans (mkGradient_ok hk _ hok)

/-- C3 witness: the amended theorem applied at the concrete linear-gradient
node `nodeGradL`, builder succeeding. -/
theorem C3_wit :
    hkT.gradOk (.linearG descL.point0 descL.point1 (xf0.applyN descL.colors) descL.offsets
      descL.tileMode descL.flags 6) = true
  ∧ applyShader hkT xf0 nodeGradL =
      .ok (some (.linearG descL.point0 descL.point1 (xf0.applyN descL.colors) descL.offsets
        descL.tileMode descL.flags 6)) :=
  ⟨rfl, (C3_gradient_structure hkT xf0 false none dummyShader dummyShader 0 6 descL
    (Or.inl rfl)).1 rfl⟩

/-- C4: a node reaching the gradient branch with the flat-color sub-kind
(`kColor`) hits `SkASSERT(false)` and halts; and under the collaborator
contract — a node reporting the `kColor` gradient kind also passes the
constant-color introspection — the flat-color branch captures it first, so the
assertion is unreachable.  The `kNone` sub-kind cannot enter the branch at
all: the branch guard only fires on a nonzero gradient type, which the
embedding reflects by the `Option` around `SkGradType`. -/
theorem C4_gradient_assert (hk : Hooks) (xf : SkColorSpaceXformer) :
    (∀ (ic : Bool) (lum : Option SkColor) (cA cB : Shader) (cm : SkBlendMode)
        (lm : SkMatrix) (d : SkGradientDesc), (ic = false ∨ lum = none) →
      applyShader hk xf (.node ic lum none false cA cB cm (some (.kColor, d)) lm) = Res.crash)
  ∧ (∀ (c : SkColor) (imgq : Option SkImageQuery) (hc : Bool) (cA cB : Shader)
        (cm : SkBlendMode) (lm : SkMatrix) (d : SkGradientDesc),
      applyShader hk xf (.node true (some c) imgq hc cA cB cm (some (.kColor, d)) lm) =
        .ok (some (.withLocalMatrix (.colorShader (xf.apply1 c)) lm))) := by
  constructor
  · intro ic lum cA cB cm lm d hconst
    exact (applyShader_rest hk xf ic lum false cA cB cm (some (.kColor, d)) lm hconst).trans rfl
  · intro c imgq hc cA cB cm lm d
    exact applyShader_const hk xf c imgq hc cA cB cm (some (.kColor, d)) lm

/-- C4 witness: a concrete contract-breaking node reporting `kColor` without
the constant-color answer crashes; a contract-respecting one is captured by
the flat-color branch. -/
theorem C4_wit :
    applyShader hkT xf0 nodeKColor = Res.crash
  ∧ applyShader hkT xf0 (.node true (some 5) none false dummyShader dummyShader 0
      (some (.kColor, descL)) 7) =
      .ok (some (.withLocalMatrix (.colorShader (xf0.apply1 5)) 7)) :=
  ⟨(C4_gradient_assert hkT xf0).1 false none dummyShader dummyShader 0 0 descL (Or.inl rfl),
   (C4_gradient_assert hkT xf0).2 5 none false dummyShader dummyShader 0 7 descL⟩

/-- C5: a node answering no to all four introspection queries converts to the
very node it was given — the shared-reference fallback of line 140, neither a
copy of different shape nor a failure. -/
theorem C5_unrecognized_same (hk : Hooks) (xf : SkColorSpaceXformer) (ic : Bool)
    (lum : Option SkColor) (cA cB : Shader) (cm : SkBlendMode) (lm : SkMatrix)
    (hconst : ic = false ∨ lum = none) :
    applyShader hk xf (.node ic lum none false cA cB cm none lm) =
      .ok (some (.node ic lum none false cA cB cm none lm)) :=
  (applyShader_rest hk xf ic lum false cA cB cm none lm hconst).trans rfl

/-- C5 witness: a concrete all-no node is returned unchanged. -/
theorem C5_wit :
    applyShader hkT xf0 nodeOpaque = .ok (some nodeOpaque) :=
  C5_unrecognized_same hkT xf0 false none dummyShader dummyShader 3 8 (Or.inl rfl)

/-- C6: for every successfully converted paint, a flat color whose RGB
channels are all zero is kept byte-identical, and a flat color with any
nonzero RGB bit is replaced by its scalar conversion. -/
theorem C6_black_color_fastpath (hk : Hooks) (xf : SkColorSpaceXformer) (p r : SkPaint)
    (h : applyPaint hk xf p = .ok r) :
    (p.color &&& 0xffffff = 0 → r.color = p.color)
  ∧ (p.color &&& 0xffffff ≠ 0 → r.color = xf.apply1 p.color) := by
  have hc := applyPaint_color_eq hk xf p r h
  constructor
  · intro hz; rw [hc]; simp [colorStep, hz]
  · intro hnz; rw [hc]; simp [colorStep, hnz]

/-- C6 witness: a transparent-black paint is unchanged byte for byte; a paint
with nonzero RGB gets its color converted (via the theorem). -/
theorem C6_wit :
    applyPaint hkT xf0 pBlack = .ok pBlack
  ∧ pRed.color &&& 0xffffff ≠ 0
  ∧ applyPaint hkT xf0 pRed = .ok pRedOut
  ∧ pRedOut.color = xf0.apply1 pRed.color :=
  ⟨by decide, by decide, by decide,
    (C6_black_color_fastpath hkT xf0 pRed pRedOut (by decide)).2 (by decide)⟩

/-- C7: the scalar color conversion is exactly the batch conversion of a
one-element sequence, and the batch conversion of any sequence converts each
element independently as the scalar form does. -/
theorem C7_batch_scalar_agree (xf : SkColorSpaceXformer) (c : SkColor) (cs : List SkColor) :
    xf.apply1 c = (xf.applyN [c]).headD 0
  ∧ xf.applyN [c] = [xf.apply1 c]
  ∧ xf.applyN cs = cs.map xf.apply1 :=
  ⟨rfl, rfl, applyN_map xf cs⟩

/-- C8: converter construction yields a converter exactly when the external
transform factory yields a transform for the destination, and on success the
converter stores that destination space. -/
theorem C8_make_gating (mkXform : SkColorSpaceId → SkColorSpaceId → Option (SkColor → SkColor))
    (dst : SkColorSpaceId) :
    ((SkColorSpaceXformer.Make mkXform dst).isSome ↔ (mkXform srgbSpace dst).isSome)
  ∧ ∀ xf, SkColorSpaceXformer.Make mkXform dst = some xf → xf.fDst = dst := by
  unfold SkColorSpaceXformer.Make
  cases h : mkXform srgbSpace dst with
  | none => exact ⟨by simp, fun xf hx => by cases hx⟩
  | some t => exact ⟨by simp, fun xf hx => by cases hx; rfl⟩

/-- C8 witness: a concrete always-succeeding factory produces a converter with
the requested destination. -/
theorem C8_wit :
    SkColorSpaceXformer.Make mkX0 1 = some xf0 ∧ xf0.fDst = 1 :=
  ⟨rfl, (C8_make_gating mkX0 1).2 xf0 rfl⟩

/-- C9: image retargeting never returns the identical object: a successful
`apply(SkImage)` yields an image distinct from its input, and the bitmap path
never trips its distinctness assertion and also yields an image distinct from
the zero-copy wrap of the bitmap. -/
theorem C9_retarget_distinct (xf : SkColorSpaceXformer) :
    (∀ src res : SkImage, xf.applyImage src = some res → res ≠ src)
  ∧ (∀ bm : SkBitmap, xf.applyBitmap bm ≠ Res.crash)
  ∧ (∀ (bm : SkBitmap) (image res : SkImage), bm.wrapped = some image →
      xf.applyBitmap bm = .ok (some res) → res ≠ image) := by
  have key : ∀ src res : SkImage, src.makeColorSpace xf.fDst = some res → res ≠ src := by
    intro src res h
    obtain ⟨o, sp, ok⟩ := src
    cases ok
    · cases h
    · cases h
      intro heq
      exact Nat.succ_ne_self o (congrArg SkImage.objId heq)
  refine ⟨fun src res h => key src res h, ?_, ?_⟩
  · intro bm
    obtain ⟨w⟩ := bm
    cases w with
    | none => simp [SkColorSpaceXformer.applyBitmap]
    | some image =>
      cases hmcs : image.makeColorSpace xf.fDst with
      | none => simp [SkColorSpaceXformer.applyBitmap, hmcs]
      | some x =>
        have hne : x ≠ image := key image x hmcs
        simp [SkColorSpaceXformer.applyBitmap, hmcs, hne]
  · intro bm image res hw h
    obtain ⟨w⟩ := bm
    cases hw
    simp only [SkColorSpaceXformer.applyBitmap] at h
    cases hmcs : image.makeColorSpace xf.fDst with
    | none => rw [hmcs] at h; cases h
    | some x =>
      have hne : x ≠ image := key image x hmcs
      rw [hmcs] at h
      have h2 : (if x = image then Res.crash else Res.ok (some x)) = Res.ok (some res) := h
      rw [if_neg hne] at h2
      cases h2
      exact hne

/-- C9 witness: a concrete image and bitmap, with the distinctness conclusions
obtained from the theorem. -/
theorem C9_wit :
    xf0.applyImage imgGood = some { objId := 5, space := some 1, mcsOk := true }
  ∧ ({ objId := 5, space := some 1, mcsOk := true } : SkImage) ≠ imgGood
  ∧ xf0.applyBitmap bmGood ≠ Res.crash :=
  ⟨by decide, (C9_retarget_distinct xf0).1 imgGood _ (by decide),
    (C9_retarget_distinct xf0).2.1 bmGood⟩

/-- C10: the black fast path applies only to the paint's flat color field: a
solid-recolor filter is rebuilt with its color converted whatever that color
is, a constant-color node's color is converted whatever it is, and gradient
stop colors are all converted by the batch call with no black bypass. -/
theorem C10_no_black_fastpath_elsewhere (hk : Hooks) (xf : SkColorSpaceXformer) :
    (∀ (p r : SkPaint) (c : SkColor) (m : SkBlendMode),
      p.colorFilter = some (.modeFilter c m) → applyPaint hk xf p = .ok r →
      r.colorFilter = some (.modeFilter (xf.apply1 c) m))
  ∧ (∀ (c : SkColor) (imgq : Option SkImageQuery) (hc : Bool) (cA cB : Shader)
       (cm : SkBlendMode) (grad : Option (SkGradType × SkGradientDesc)) (lm : SkMatrix),
      applyShader hk xf (.node true (some c) imgq hc cA cB cm grad lm) =
        .ok (some (.withLocalMatrix (.colorShader (xf.apply1 c)) lm)))
  ∧ (∀ (ic : Bool) (lum : Option SkColor) (cA cB : Shader) (cm : SkBlendMode)
       (lm : SkMatrix) (d : SkGradientDesc), (ic = false ∨ lum = none) →
      hk.gradOk (.linearG d.point0 d.point1 (xf.applyN d.colors) d.offsets d.tileMode
        d.flags lm) = true →
      applyShader hk xf (.node ic lum none false cA cB cm (some (.kLinear, d)) lm) =
        .ok (some (.linearG d.point0 d.point1 (d.colors.map xf.apply1) d.offsets d.tileMode
          d.flags lm))) := by
  refine ⟨?_, ?_, ?_⟩
  · intro p r c m hcf h
    have hf := applyPaint_filter_eq hk xf p r h
    rw [hf, hcf]
    rfl
  · intro c imgq hc cA cB cm grad lm
    exact applyShader_const hk xf c imgq hc cA cB cm grad lm
  · intro ic lum cA cB cm lm d hconst hok
    have h := (applyShader_rest hk xf ic lum false cA cB cm (some (.kLinear, d)) lm
      hconst).trans (mkGradient_ok hk _ hok)
    rw [applyN_map] at h
    exact h

/-- C10 witness: a paint with a pure-black solid-recolor filter gets the
filter color converted, and a constant-color node with a pure-black color is
rebuilt around the converted color. -/
theorem C10_wit :
    pCF.colorFilter = some (.modeFilter 0xFF000000 3)
  ∧ applyPaint hkT xf0 pCF = .ok pCFOut
  ∧ pCFOut.colorFilter = some (.modeFilter (xf0.apply1 0xFF000000) 3)
  ∧ applyShader hkT xf0 (.node true (some 0xFF000000) none false dummyShader dummyShader 0
      none 2) =
      .ok (some (.withLocalMatrix (.colorShader (xf0.apply1 0xFF000000)) 2)) :=
  ⟨rfl, by decide,
    (C10_no_black_fastpath_elsewhere hkT xf0).1 pCF pCFOut 0xFF000000 3 rfl (by decide),
    (C10_no_black_fastpath_elsewhere hkT xf0).2.1 0xFF000000 none false dummyShader
      dummyShader 0 none 2⟩
